import Mathlib

/-!
Verification development for the mock smart-contract VM of this repository.

The embedding is shallow: the Rust functions of
`vm/src/tx_execution/exec_general_tx.rs`,
`vm/src/tx_execution/exec_contract_endpoint.rs`,
`vm/src/tx_mock/tx_context.rs` and
`elrond-wasm-debug/src/ext_mock.rs`
are translated into executable Lean functions.  Byte strings become
`List Nat` (each entry a byte value), arbitrary-precision balances become
`Nat`, hash maps become association lists with insert/lookup semantics,
and Rust panics become explicit error values of dedicated types.

Parts of the engine that the sampled files only call (the `TxCache`
transfer primitives, `insert_account`, the VM-side `TxResult`,
`catch_tx_panic`) are modelled from the specification; each such
definition carries a doc comment starting with `Modelled from the spec:`.
-/

/-- Byte strings: each entry is one byte value. -/
abbrev Bytes := List Nat

/-- Decidable equality of fallible results, so that concrete runs of the
embedding can be checked by evaluation. -/
instance instDecidableEqExcept {e a : Type} [DecidableEq e] [DecidableEq a] :
    DecidableEq (Except e a) := fun x y =>
  match x, y with
  | Except.ok u, Except.ok v => decidable_of_iff (u = v) (by simp)
  | Except.error u, Except.error v => decidable_of_iff (u = v) (by simp)
  | Except.ok _, Except.error _ => Decidable.isFalse (by simp)
  | Except.error _, Except.ok _ => Decidable.isFalse (by simp)

/-- Lookup in an association list (the embedding of `HashMap::get`). -/
def assocGet {κ α : Type} [DecidableEq κ] : List (κ × α) → κ → Option α
  | [], _ => none
  | (k', v') :: rest, k => if k' = k then some v' else assocGet rest k

/-- Insert into an association list, replacing an existing binding
(the embedding of `HashMap::insert`). -/
def assocInsert {κ α : Type} [DecidableEq κ] : List (κ × α) → κ → α → List (κ × α)
  | [], k, v => [(k, v)]
  | (k', v') :: rest, k, v =>
      if k' = k then (k, v) :: rest else (k', v') :: assocInsert rest k v

/-- Big-endian byte encoding of an unsigned arbitrary-precision integer,
with zero encoded as the empty byte string. -/
def natToBytesBE (n : Nat) : Bytes :=
  if h : n = 0 then []
  else natToBytesBE (n / 256) ++ [n % 256]
termination_by n
decreasing_by
  exact Nat.div_lt_self (Nat.pos_of_ne_zero h) (by norm_num)

/-- Big-endian interpretation of a byte string as an unsigned integer
(the embedding of `BigInt::from_bytes_be(Sign::Plus, _)`). -/
def bytesToNatBE (l : Bytes) : Nat :=
  l.foldl (fun acc b => acc * 256 + b) 0

/-- Two's-complement big-endian decoding
(the embedding of `BigInt::from_signed_bytes_be`). -/
def fromSignedBytesBE (l : Bytes) : Int :=
  match l with
  | [] => 0
  | b :: _ =>
      if 128 ≤ b then (bytesToNatBE l : Int) - ((256 : Int) ^ l.length)
      else (bytesToNatBE l : Int)

/-- Status code + message carrier for an abnormal execution termination
(`TxPanic` in both `ext_mock.rs` and the vm crate). -/
structure TxPanic where
  status : Nat
  message : String
deriving DecidableEq, Repr

/-- `TxPanic::user_error`: a user error has status 4. -/
def TxPanic.user_error (m : String) : TxPanic :=
  { status := 4, message := m }

namespace ExtMock

/-! Embedding of the contract hook primitives of
`elrond-wasm-debug/src/ext_mock.rs`.  The hook functions read and write
`tx_output.contract_storage` and read `tx_input.args`; they are embedded
as functions over the storage map / argument list, with Rust panics
turned into explicit `HookError` values. -/

/-- The ways a hook primitive aborts in `ext_mock.rs`:
a plain string panic (`panic!("...")`), a structured `TxPanic` panic
(`panic!(TxPanic{..})`), or a `usize` subtraction underflow
(`32 - value.len()` with `value.len() > 32`). -/
inductive HookError where
  | strPanic (message : String)
  | txPanic (p : TxPanic)
  | usizeUnderflow
deriving DecidableEq, Repr

/-- True exactly when the hook call failed with a structured status-10
`TxPanic`. -/
def resultIsStatus10Panic {α : Type} : Except HookError α → Bool
  | Except.error (HookError.txPanic p) => p.status = 10
  | _ => false

/-- The account's key→value storage map (`contract_storage`). -/
abbrev Storage := List (Bytes × Bytes)

/-- The reserved key marker, `b"ELROND"`. -/
def elrond_reserved : Bytes := [69, 76, 82, 79, 78, 68]

/-- `storage_store`: writing under a key starting with the reserved
marker panics with a status-10 `TxPanic`; otherwise the pair is inserted
into the storage map. -/
def storage_store (st : Storage) (key value : Bytes) : Except HookError Storage :=
  if elrond_reserved.isPrefixOf key then
    Except.error (HookError.txPanic
      { status := 10, message := "cannot write to storage under Elrond reserved key" })
  else
    Except.ok (assocInsert st key value)

/-- `storage_load`: a missing key loads as the empty byte string. -/
def storage_load (st : Storage) (key : Bytes) : Bytes :=
  match assocGet st key with
  | none => []
  | some value => value

/-- `storage_store_bytes32`: stores the 32 bytes as a plain value. -/
def storage_store_bytes32 (st : Storage) (key value : Bytes) : Except HookError Storage :=
  storage_store st key value

/-- `storage_load_bytes32`: loads the value, then right-aligns it in a
32-byte array zero-filled on the left, at offset `32 - value.len()`.
The offset is a `usize` subtraction: a loaded value longer than 32 bytes
underflows it and aborts. -/
def storage_load_bytes32 (st : Storage) (key : Bytes) : Except HookError Bytes :=
  let value := storage_load st key
  if 32 < value.length then Except.error HookError.usizeUnderflow
  else Except.ok (List.replicate (32 - value.length) 0 ++ value)

/-- `storage_store_big_uint`: stores the big-endian bytes of the value.
Modelled from the spec: the unsigned arbitrary-precision encoding is
big-endian with zero encoded as the empty byte string (the
`RustBigUint::to_bytes_be` wrapper is not among the sampled files). -/
def storage_store_big_uint (st : Storage) (key : Bytes) (value : Nat) :
    Except HookError Storage :=
  storage_store st key (natToBytesBE value)

/-- `storage_load_big_uint`: loads the bytes and interprets them as an
unsigned big-endian integer (`BigInt::from_bytes_be(Sign::Plus, _)`). -/
def storage_load_big_uint (st : Storage) (key : Bytes) : Nat :=
  bytesToNatBE (storage_load st key)

/-- `get_argument_vec_u8`: `arg_index as usize` (an `i32` sign-extended
to 64 bits) out of the declared range panics with the plain string
`"Tx arg index out of range"`. -/
def get_argument_vec_u8 (args : List Bytes) (arg_index : Int) : Except HookError Bytes :=
  let arg_idx_usize : Nat := (arg_index % (2 ^ 64 : Int)).toNat
  if args.length ≤ arg_idx_usize then
    Except.error (HookError.strPanic "Tx arg index out of range")
  else
    Except.ok (args.getD arg_idx_usize [])

/-- `get_argument_bytes32`: reads the argument and right-aligns it in a
32-byte array at offset `32 - arg.len()`; an argument longer than 32
bytes underflows the `usize` subtraction and aborts. -/
def get_argument_bytes32 (args : List Bytes) (arg_index : Int) : Except HookError Bytes :=
  match get_argument_vec_u8 args arg_index with
  | Except.error e => Except.error e
  | Except.ok arg =>
      if 32 < arg.length then Except.error HookError.usizeUnderflow
      else Except.ok (List.replicate (32 - arg.length) 0 ++ arg)

/-- `get_argument_i64`: decodes the argument as a signed big-endian
integer; a value that does not fit in `i64` panics with a status-10
`TxPanic` carrying `"argument out of range"`. -/
def get_argument_i64 (args : List Bytes) (arg_index : Int) : Except HookError Int :=
  match get_argument_vec_u8 args arg_index with
  | Except.error e => Except.error e
  | Except.ok bytes =>
      let bi := fromSignedBytesBE bytes
      if -(2 ^ 63 : Int) ≤ bi ∧ bi < 2 ^ 63 then Except.ok bi
      else Except.error (HookError.txPanic { status := 10, message := "argument out of range" })

end ExtMock

namespace VmCore

/-! Embedding of the vm crate's transaction execution engine:
`tx_execution/exec_general_tx.rs`, `tx_execution/exec_contract_endpoint.rs`
and `tx_mock/tx_context.rs`. -/

/-- 32-byte account address. -/
abbrev VMAddress := Bytes

/-- `VMAddress::zero()`. -/
def VMAddress.zero : VMAddress := List.replicate 32 0

/-- Modelled from the spec: a contract is distinguished from a plain
account by an address-shape convention checked via a pure predicate;
modelled as a fixed leading pattern of zero bytes. -/
def VMAddress.is_smart_contract_address (a : VMAddress) : Bool :=
  decide (a.take 8 = List.replicate 8 0)

/-- One secondary-token transfer of a transaction input
(token identifier, nonce, amount). -/
structure EsdtTransfer where
  token_identifier : Bytes
  nonce : Nat
  value : Nat
deriving DecidableEq, Repr

/-- `TxInput`: the immutable per-call record (`from` and `to` are spelled
`from_addr` and `to_addr`, since both are reserved tokens in Lean). -/
structure TxInput where
  from_addr : VMAddress
  to_addr : VMAddress
  egld_value : Nat
  esdt_values : List EsdtTransfer
  func_name : String
  args : List Bytes
  gas_limit : Nat
  gas_price : Nat
  tx_hash : Bytes
deriving DecidableEq, Repr

/-- One account of the ledger (`AccountData` of the vm crate); the
secondary-token ledger maps (token identifier, nonce) to a balance. -/
structure AccountData where
  address : VMAddress
  nonce : Nat
  egld_balance : Nat
  storage : List (Bytes × Bytes)
  esdt : List ((Bytes × Nat) × Nat)
  username : Bytes
  contract_path : Option Bytes
  contract_owner : Option VMAddress
  developer_rewards : Nat
deriving DecidableEq, Repr

/-- Secondary-token balance of an account; a missing ledger entry reads
as zero. -/
def AccountData.esdt_balance (a : AccountData) (token : Bytes) (nonce : Nat) : Nat :=
  match assocGet a.esdt (token, nonce) with
  | none => 0
  | some b => b

/-- Modelled from the spec: the Transaction Cache owns a reference to
the committed Account Store (`blockchain_ref`) and a working set of
modified/new accounts (`accounts`); reads fall through to the committed
store when no cached override exists. -/
structure TxCache where
  blockchain_ref : List AccountData
  accounts : List (VMAddress × AccountData)
deriving DecidableEq, Repr

/-- Lookup of an account in the committed store by address. -/
def findCommittedAccount : List AccountData → VMAddress → Option AccountData
  | [], _ => none
  | a :: rest, addr => if a.address = addr then some a else findCommittedAccount rest addr

/-- Cache read: the cached override if present, else the committed
store. -/
def TxCache.get_account (c : TxCache) (addr : VMAddress) : Option AccountData :=
  match assocGet c.accounts addr with
  | some acct => some acct
  | none => findCommittedAccount c.blockchain_ref addr

/-- Cache write: install an account in the working set (copy-on-write,
the committed store is never touched). -/
def TxCache.put_account (c : TxCache) (addr : VMAddress) (acct : AccountData) : TxCache :=
  { c with accounts := assocInsert c.accounts addr acct }

/-- How a cache/engine primitive fails: a catchable `TxPanic` carried as
a `Result::Err` (for example insufficient funds), or a fatal Rust panic
(a programming-level violation such as a missing account). -/
inductive VmError where
  | panic (p : TxPanic)
  | fatal (message : String)
deriving DecidableEq, Repr

/-- Modelled from the spec: the insufficient-funds Transaction Panic
raised when a transfer leg cannot be satisfied; the spec fixes its
status only as non-zero (status 10 is the engine/argument-violation
class). -/
def insufficient_funds_panic : TxPanic :=
  { status := 10, message := "insufficient funds" }

/-- A fresh account created by first funding. -/
def AccountData.newFunded (addr : VMAddress) (amount : Nat) : AccountData :=
  { address := addr, nonce := 0, egld_balance := amount, storage := [], esdt := [],
    username := [], contract_path := none, contract_owner := none,
    developer_rewards := 0 }

/-- Modelled from the spec: `subtract_egld_balance` validates that the
account holds at least the amount, failing with the insufficient-funds
panic and leaving the cache untouched otherwise; a missing account is a
programming-level (fatal) violation. -/
def TxCache.subtract_egld_balance (c : TxCache) (addr : VMAddress) (amount : Nat) :
    Except VmError TxCache :=
  match c.get_account addr with
  | none => Except.error (VmError.fatal "account not found")
  | some acct =>
      if acct.egld_balance < amount then
        Except.error (VmError.panic insufficient_funds_panic)
      else
        Except.ok (c.put_account addr { acct with egld_balance := acct.egld_balance - amount })

/-- Modelled from the spec: `increase_egld_balance` credits the amount,
creating the account on first funding. -/
def TxCache.increase_egld_balance (c : TxCache) (addr : VMAddress) (amount : Nat) : TxCache :=
  match c.get_account addr with
  | none => c.put_account addr (AccountData.newFunded addr amount)
  | some acct =>
      c.put_account addr { acct with egld_balance := acct.egld_balance + amount }

/-- Modelled from the spec: `transfer_egld_balance` atomically validates
sufficient balance and applies both legs, all-or-nothing. -/
def TxCache.transfer_egld_balance (c : TxCache) (fromA toA : VMAddress) (amount : Nat) :
    Except VmError TxCache :=
  match c.subtract_egld_balance fromA amount with
  | Except.error e => Except.error e
  | Except.ok c1 => Except.ok (c1.increase_egld_balance toA amount)

/-- Modelled from the spec: `transfer_esdt_balance` validates the
sender's secondary-token balance and applies both legs, all-or-nothing,
failing with the insufficient-funds panic and leaving the cache
untouched when the sender's balance is below the amount. -/
def TxCache.transfer_esdt_balance (c : TxCache) (fromA toA : VMAddress)
    (token : Bytes) (nonce : Nat) (amount : Nat) : Except VmError TxCache :=
  match c.get_account fromA with
  | none => Except.error (VmError.fatal "account not found")
  | some sender =>
      if sender.esdt_balance token nonce < amount then
        Except.error (VmError.panic insufficient_funds_panic)
      else
        let c1 := c.put_account fromA
          { sender with esdt :=
              assocInsert sender.esdt (token, nonce) (sender.esdt_balance token nonce - amount) }
        match c1.get_account toA with
        | none =>
            Except.ok (c1.put_account toA
              { AccountData.newFunded toA 0 with esdt := [((token, nonce), amount)] })
        | some rcpt =>
            Except.ok (c1.put_account toA
              { rcpt with esdt :=
                  (assocInsert rcpt.esdt (token, nonce)
                    (rcpt.esdt_balance token nonce + amount)) })

/-- Modelled from the spec: `insert_account` fails if an account already
exists at that address (deploy-address collision is fatal, never
silently overwritten). -/
def TxCache.insert_account (c : TxCache) (acct : AccountData) : Except VmError TxCache :=
  match c.get_account acct.address with
  | some _ => Except.error (VmError.fatal "Account already exists at deploy address.")
  | none => Except.ok (c.put_account acct.address acct)

/-- Modelled from the spec: the Blockchain Update materializes the
cache's new/modified accounts once the cache is consumed. -/
structure BlockchainUpdate where
  accounts : List (VMAddress × AccountData)
deriving DecidableEq, Repr

/-- `BlockchainUpdate::empty()`: no entries. -/
def BlockchainUpdate.empty : BlockchainUpdate := { accounts := [] }

/-- Modelled from the spec: consuming the cache turns its working set of
modified/new accounts into the committed delta. -/
def TxCache.into_blockchain_updates (c : TxCache) : BlockchainUpdate :=
  { accounts := c.accounts }

/-- One emitted log (`TxLog`): emitting address, endpoint name, topic
byte-strings and payload bytes. -/
structure TxLog where
  address : VMAddress
  endpoint : String
  topics : List Bytes
  data : Bytes
deriving DecidableEq, Repr

/-- Modelled from the spec: the vm-side Transaction Result – status code
(0 = success), message, returned byte-values and emitted logs. -/
structure TxResult where
  result_status : Nat
  result_message : String
  result_values : List Bytes
  result_logs : List TxLog
deriving DecidableEq, Repr

/-- `TxResult::empty()`: successful, no message, no values, no logs. -/
def TxResult.empty : TxResult :=
  { result_status := 0, result_message := "", result_values := [], result_logs := [] }

/-- `TxResult::from_panic_obj`: the panic-derived Result carries the
panic's status and message and nothing else. -/
def TxResult.from_panic_obj (p : TxPanic) : TxResult :=
  { result_status := p.status, result_message := p.message,
    result_values := [], result_logs := [] }

/-- The shape of a panic payload reaching the Panic Translator
(`Box<dyn Any>` in `interpret_panic_as_tx_result`): a structured
`TxPanic` carrier, a textual message (`String` or `&str`), or any other
payload shape. -/
inductive PanicPayload where
  | txPanicObj (p : TxPanic)
  | textual (s : String)
  | other
deriving DecidableEq, Repr

/-- Modelled from the spec: the generic placeholder message
(`err_msg::PANIC_OCCURRED` of the framework crate) used instead of the
panic text when diagnostic detail is disabled. -/
def PANIC_OCCURRED : String := "panic occurred"

/-- `interpret_panic_str_as_tx_result`: a textual panic becomes a user
error whose message is the text prefixed by `"panic occurred: "` when
the diagnostic-detail flag is set, and the generic placeholder
otherwise. -/
def interpret_panic_str_as_tx_result (panic_str : String) (panic_message_flag : Bool) :
    TxPanic :=
  if panic_message_flag then
    TxPanic.user_error ("panic occurred: " ++ panic_str)
  else
    TxPanic.user_error PANIC_OCCURRED

/-- `interpret_panic_as_tx_result`: the Panic Translator's priority
order — structured carrier used as-is, then textual message, then the
fixed `"unknown panic object"` user error. -/
def interpret_panic_as_tx_result (panic_any : PanicPayload) (panic_message_flag : Bool) :
    TxPanic :=
  match panic_any with
  | PanicPayload.txPanicObj panic_obj => panic_obj
  | PanicPayload.textual panic_string =>
      interpret_panic_str_as_tx_result panic_string panic_message_flag
  | PanicPayload.other => TxPanic.user_error "unknown panic object"

/-- A registered endpoint body: it transforms the context's in-progress
Result (buffering values and logs) and optionally ends in a panic
payload. -/
abbrev EndpointBody := TxResult → TxResult × Option PanicPayload

/-- `ContractContainer`: the deployed contract code — its
diagnostic-detail flag (`panic_message`) and its endpoints, addressed by
name through the auto-generated function selector. -/
structure ContractContainer where
  panic_message : Bool
  endpoints : List (String × EndpointBody)

/-- `ContractContainer::call` resolves the endpoint through the function
selector; `none` is the selector reporting no match. -/
def ContractContainer.call (c : ContractContainer) (endpoint_name : String) :
    Option EndpointBody :=
  assocGet c.endpoints endpoint_name

/-- `execute_contract_instance_endpoint`: runs the selector under
`catch_tx_panic`.  A selector miss yields `Err(TxPanic::new(1, "invalid
function (not found)"))`; a panic of the body is translated by the Panic
Translator.  In either error case the context's accumulated Result is
discarded and replaced wholesale by the panic-derived Result
(`replace_tx_result_with_error`, modelled from the spec); otherwise the
accumulated Result is returned (`into_tx_result`).  `result0` is the
context's in-progress Result at dispatch time. -/
def execute_contract_instance_endpoint (contract_container : ContractContainer)
    (endpoint_name : String) (result0 : TxResult) : TxResult :=
  match contract_container.call endpoint_name with
  | none =>
      TxResult.from_panic_obj { status := 1, message := "invalid function (not found)" }
  | some body =>
      match body result0 with
      | (r, none) => r
      | (_, some payload) =>
          TxResult.from_panic_obj
            (interpret_panic_as_tx_result payload contract_container.panic_message)

/-- The dispatched call as seen by `default_execution`
(`execute_tx_context`): it runs contract code against the shared cache
and produces the call's Result and the cache it leaves behind.  The
concrete behavior depends on the registered contract code, so the engine
is parameterized by it. -/
abbrev Executor := TxInput → TxCache → TxResult × TxCache

/-- Steps 1 and 3 of `default_execution`: the native-coin leg followed
by each secondary-token leg of the input, in order, each all-or-nothing
and short-circuiting on the first failure. -/
def applyEsdtTransfers (fromA toA : VMAddress) (transfers : List EsdtTransfer)
    (c : TxCache) : Except VmError TxCache :=
  match transfers with
  | [] => Except.ok c
  | t :: rest =>
      match c.transfer_esdt_balance fromA toA t.token_identifier t.nonce t.value with
      | Except.error e => Except.error e
      | Except.ok c1 => applyEsdtTransfers fromA toA rest c1

/-- The whole transfer phase of `default_execution`: the native-coin
transfer, then the secondary-token transfers in order. -/
def transferPhase (tx_input : TxInput) (c : TxCache) : Except VmError TxCache :=
  match c.transfer_egld_balance tx_input.from_addr tx_input.to_addr tx_input.egld_value with
  | Except.error e => Except.error e
  | Except.ok c1 =>
      applyEsdtTransfers tx_input.from_addr tx_input.to_addr tx_input.esdt_values c1

/-- The synthesized system-level transfer log of `default_execution`:
zero emitting address, endpoint `"transferValueOnly"`, topics
`[from, to, value-as-big-endian-bytes]`, empty payload. -/
def transferValueOnlyLog (tx_input : TxInput) : TxLog :=
  { address := VMAddress.zero,
    endpoint := "transferValueOnly",
    topics := [tx_input.from_addr, tx_input.to_addr, natToBytesBE tx_input.egld_value],
    data := [] }

/-- Steps 4 and 5 of `default_execution`: a plain value transfer (the
recipient is not a contract address, or the endpoint name is empty)
produces an empty successful Result with no dispatch; otherwise the
contract endpoint is dispatched. -/
def dispatchPhase (executor : Executor) (tx_input : TxInput) (c : TxCache) :
    TxResult × TxCache :=
  if !tx_input.to_addr.is_smart_contract_address || tx_input.func_name = "" then
    (TxResult.empty, c)
  else
    executor tx_input c

/-- `default_execution(tx_input, tx_cache)` of `exec_general_tx.rs`:
native-coin transfer (short-circuiting to a panic-derived Result and an
empty Blockchain Update on failure), optional synthesized transfer log,
secondary-token transfers in order (same short-circuit), then either a
plain value transfer (empty successful Result) or endpoint dispatch,
with the transfer log prepended to the call's logs, and finally the
cache consumed into the Blockchain Update.  A fatal engine panic is an
`Except.error`. -/
def default_execution (executor : Executor) (tx_input : TxInput) (tx_cache : TxCache) :
    Except String (TxResult × BlockchainUpdate) :=
  match tx_cache.transfer_egld_balance tx_input.from_addr tx_input.to_addr
      tx_input.egld_value with
  | Except.error (VmError.panic err) =>
      Except.ok (TxResult.from_panic_obj err, BlockchainUpdate.empty)
  | Except.error (VmError.fatal m) => Except.error m
  | Except.ok cache1 =>
      let add_transfer_log :=
        tx_input.from_addr.is_smart_contract_address && tx_input.egld_value ≠ 0
      let transfer_value_log : Option TxLog :=
        if add_transfer_log then some (transferValueOnlyLog tx_input) else none
      match applyEsdtTransfers tx_input.from_addr tx_input.to_addr
          tx_input.esdt_values cache1 with
      | Except.error (VmError.panic err) =>
          Except.ok (TxResult.from_panic_obj err, BlockchainUpdate.empty)
      | Except.error (VmError.fatal m) => Except.error m
      | Except.ok cache2 =>
          let dispatched : TxResult × TxCache := dispatchPhase executor tx_input cache2
          let tx_result :=
            match transfer_value_log with
            | some tv_log =>
                { dispatched.1 with result_logs := tv_log :: dispatched.1.result_logs }
            | none => dispatched.1
          Except.ok (tx_result, dispatched.2.into_blockchain_updates)

/-- `TxContext::create_new_contract` of `tx_mock/tx_context.rs`: asserts
that no account exists at the deploy address in the committed store,
then registers the new contract account (zero balance, empty storage,
the given contract reference and owner) through `insert_account`, which
itself fails on an existing account. -/
def create_new_contract (c : TxCache) (new_address : VMAddress)
    (contract_path : Bytes) (contract_owner : VMAddress) : Except VmError TxCache :=
  if (findCommittedAccount c.blockchain_ref new_address).isSome then
    Except.error (VmError.fatal "Account already exists at deploy address.")
  else
    c.insert_account
      { address := new_address, nonce := 0, egld_balance := 0, storage := [], esdt := [],
        username := [], contract_path := some contract_path,
        contract_owner := some contract_owner, developer_rewards := 0 }

end VmCore

/-! Concrete fixtures used to evaluate the embedding on closed inputs. -/

namespace Fixtures

open VmCore

/-- A plain (non-contract) user address. -/
def addrUser : VMAddress := List.replicate 32 1

/-- A contract-shaped address. -/
def addrContractA : VMAddress := List.replicate 8 0 ++ List.replicate 24 2

/-- A second contract-shaped address. -/
def addrContractB : VMAddress := List.replicate 8 0 ++ List.replicate 24 3

/-- A dispatched call that does nothing: empty successful Result, cache
untouched. -/
def trivialExecutor : Executor := fun _ c => (TxResult.empty, c)

/-- A dispatched call that emits one contract-level log. -/
def loggingExecutor : Executor := fun i c =>
  ({ TxResult.empty with
      result_logs := [{ address := i.to_addr, endpoint := "ep", topics := [], data := [] }] },
    c)

/-- A transaction input asking for more native coin than the sender
holds in `cacheUserNoFunds`. -/
def inputUserNoFunds : TxInput :=
  { from_addr := addrUser, to_addr := addrContractA, egld_value := 5, esdt_values := [],
    func_name := "", args := [], gas_limit := 0, gas_price := 0, tx_hash := [] }

/-- A ledger where the plain user holds balance 3. -/
def cacheUserNoFunds : TxCache :=
  { blockchain_ref := [AccountData.newFunded addrUser 3], accounts := [] }

/-- A contract-to-contract call transferring 7 native-coin units. -/
def inputScTransfer : TxInput :=
  { from_addr := addrContractA, to_addr := addrContractB, egld_value := 7, esdt_values := [],
    func_name := "foo", args := [], gas_limit := 0, gas_price := 0, tx_hash := [] }

/-- A ledger where contract A holds balance 10. -/
def cacheScTransfer : TxCache :=
  { blockchain_ref := [AccountData.newFunded addrContractA 10], accounts := [] }

/-- `cacheScTransfer` after the 7-unit native-coin transfer of
`inputScTransfer` has been applied. -/
def cacheScAfter : TxCache :=
  { blockchain_ref := [AccountData.newFunded addrContractA 10],
    accounts :=
      [(addrContractA, { AccountData.newFunded addrContractA 10 with egld_balance := 3 }),
        (addrContractB, AccountData.newFunded addrContractB 7)] }

/-- A cache whose working set already holds an account at contract
address A. -/
def cacheOccupied : TxCache :=
  { blockchain_ref := [], accounts := [(addrContractA, AccountData.newFunded addrContractA 0)] }

/-- A contract with no endpoints at all. -/
def emptyContainer : ContractContainer :=
  { panic_message := true, endpoints := [] }

end Fixtures

/-! Helper lemmas. -/

theorem assocGet_assocInsert_same {κ α : Type} [DecidableEq κ]
    (m : List (κ × α)) (k : κ) (v : α) :
    assocGet (assocInsert m k v) k = some v := by
  induction m with
  | nil => simp [assocInsert, assocGet]
  | cons hd tl ih =>
      obtain ⟨k', v'⟩ := hd
      by_cases h : k' = k
      · simp [assocInsert, assocGet, h]
      · simp [assocInsert, assocGet, h, ih]

theorem assocGet_assocInsert_other {κ α : Type} [DecidableEq κ]
    (m : List (κ × α)) (k k' : κ) (v : α) (hne : k ≠ k') :
    assocGet (assocInsert m k v) k' = assocGet m k' := by
  induction m with
  | nil => simp [assocInsert, assocGet, hne]
  | cons hd tl ih =>
      obtain ⟨k0, v0⟩ := hd
      by_cases h : k0 = k
      · subst h
        simp [assocInsert, assocGet, hne]
      · simp only [assocInsert, if_neg h]
        by_cases h' : k0 = k'
        · simp [assocGet, h']
        · simp [assocGet, h', ih]

theorem bytesToNatBE_foldl (l : Bytes) (acc : Nat) :
    l.foldl (fun acc b => acc * 256 + b) acc =
      acc * 256 ^ l.length + bytesToNatBE l := by
  induction l generalizing acc with
  | nil => simp [bytesToNatBE]
  | cons b rest ih =>
      simp only [List.foldl_cons, List.length_cons, bytesToNatBE]
      rw [ih (acc * 256 + b), ih ((0 : Nat) * 256 + b)]
      ring

theorem bytesToNatBE_append_singleton (l : Bytes) (b : Nat) :
    bytesToNatBE (l ++ [b]) = bytesToNatBE l * 256 + b := by
  simp only [bytesToNatBE, List.foldl_append, List.foldl_cons, List.foldl_nil]

/-- Round-trip: decoding the big-endian encoding recovers the integer. -/
theorem bytesToNatBE_natToBytesBE (n : Nat) :
    bytesToNatBE (natToBytesBE n) = n := by
  induction n using Nat.strong_induction_on with
  | _ n ih =>
      unfold natToBytesBE
      split
      · simp [bytesToNatBE]
        omega
      · rename_i h
        rw [bytesToNatBE_append_singleton,
          ih (n / 256) (Nat.div_lt_self (Nat.pos_of_ne_zero h) (by norm_num))]
        omega


namespace VmCore

theorem subtract_egld_panic_eq (c : TxCache) (addr : VMAddress) (amount : Nat) (p : TxPanic)
    (h : c.subtract_egld_balance addr amount = Except.error (VmError.panic p)) :
    p = insufficient_funds_panic := by
  unfold TxCache.subtract_egld_balance at h
  split at h
  · simp at h
  · split at h
    · simp at h
      exact h.symm
    · simp at h

theorem transfer_egld_panic_eq (c : TxCache) (fromA toA : VMAddress) (amount : Nat)
    (p : TxPanic)
    (h : c.transfer_egld_balance fromA toA amount = Except.error (VmError.panic p)) :
    p = insufficient_funds_panic := by
  unfold TxCache.transfer_egld_balance at h
  split at h
  · rename_i e heq
    rw [h] at heq
    exact subtract_egld_panic_eq c fromA amount p heq
  · simp at h

theorem transfer_esdt_panic_eq (c : TxCache) (fromA toA : VMAddress) (token : Bytes)
    (nonce amount : Nat) (p : TxPanic)
    (h : c.transfer_esdt_balance fromA toA token nonce amount =
      Except.error (VmError.panic p)) :
    p = insufficient_funds_panic := by
  unfold TxCache.transfer_esdt_balance at h
  split at h
  · simp at h
  · split at h
    · simp at h
      exact h.symm
    · dsimp only at h
      split at h
      · simp at h
      · simp at h

theorem applyEsdt_panic_eq (fromA toA : VMAddress) (transfers : List EsdtTransfer)
    (c : TxCache) (p : TxPanic)
    (h : applyEsdtTransfers fromA toA transfers c = Except.error (VmError.panic p)) :
    p = insufficient_funds_panic := by
  induction transfers generalizing c with
  | nil => simp [applyEsdtTransfers] at h
  | cons t rest ih =>
      unfold applyEsdtTransfers at h
      split at h
      · rename_i e heq
        rw [h] at heq
        exact transfer_esdt_panic_eq c fromA toA t.token_identifier t.nonce t.value p heq
      · rename_i c1 heq
        exact ih c1 h

theorem transferPhase_panic_eq (tx_input : TxInput) (c : TxCache) (p : TxPanic)
    (h : transferPhase tx_input c = Except.error (VmError.panic p)) :
    p = insufficient_funds_panic := by
  unfold transferPhase at h
  split at h
  · rename_i e heq
    rw [h] at heq
    exact transfer_egld_panic_eq c tx_input.from_addr tx_input.to_addr
      tx_input.egld_value p heq
  · rename_i c1 heq
    exact applyEsdt_panic_eq tx_input.from_addr tx_input.to_addr
      tx_input.esdt_values c1 p h

end VmCore

/-! Claim theorems. -/

/-- C2: the Panic Translator classifies an abnormal termination by
priority: a structured `TxPanic` carrier is used as-is (status and
message); a textual payload becomes a status-4 user error with message
`"panic occurred: <text>"` when the diagnostic-detail flag is enabled
and the generic placeholder message when it is disabled; any other
payload becomes a status-4 user error with fixed message
`"unknown panic object"`. -/
theorem interpret_panic_priority_order (p : TxPanic) (s : String) (flag : Bool) :
    VmCore.interpret_panic_as_tx_result (VmCore.PanicPayload.txPanicObj p) flag = p ∧
    VmCore.interpret_panic_as_tx_result (VmCore.PanicPayload.textual s) true =
      { status := 4, message := "panic occurred: " ++ s } ∧
    VmCore.interpret_panic_as_tx_result (VmCore.PanicPayload.textual s) false =
      { status := 4, message := VmCore.PANIC_OCCURRED } ∧
    VmCore.interpret_panic_as_tx_result VmCore.PanicPayload.other flag =
      { status := 4, message := "unknown panic object" } :=
  ⟨rfl, rfl, rfl, rfl⟩

/-- C3: when the function selector reports no match for the endpoint
name, the dispatch Result has status 1, message
`"invalid function (not found)"`, and no logs and no return values,
whatever Result had accumulated so far. -/
theorem dispatch_endpoint_not_found (container : VmCore.ContractContainer)
    (name : String) (result0 : VmCore.TxResult)
    (h : container.call name = none) :
    VmCore.execute_contract_instance_endpoint container name result0 =
      { result_status := 1, result_message := "invalid function (not found)",
        result_values := [], result_logs := [] } := by
  unfold VmCore.execute_contract_instance_endpoint
  rw [h]
  rfl

theorem dispatch_endpoint_not_found_witness :
    Fixtures.emptyContainer.call "foo" = none ∧
    VmCore.execute_contract_instance_endpoint Fixtures.emptyContainer "foo"
        VmCore.TxResult.empty =
      { result_status := 1, result_message := "invalid function (not found)",
        result_values := [], result_logs := [] } :=
  ⟨rfl, dispatch_endpoint_not_found Fixtures.emptyContainer "foo" VmCore.TxResult.empty rfl⟩

/-- C4: a storage write whose key starts with the reserved marker
(`b"ELROND"`) fails with a status-10 `TxPanic`; no storage map is
produced (the embedding returns the panic instead of an updated map, so
the account's storage stays exactly as it was — the pair is not
inserted and no other entry changes). -/
theorem storage_store_reserved_key (st : ExtMock.Storage) (key value : Bytes)
    (h : ExtMock.elrond_reserved.isPrefixOf key = true) :
    ExtMock.storage_store st key value =
      Except.error (ExtMock.HookError.txPanic
        { status := 10, message := "cannot write to storage under Elrond reserved key" }) := by
  unfold ExtMock.storage_store
  rw [h]
  simp

theorem storage_store_reserved_key_witness :
    ExtMock.elrond_reserved.isPrefixOf (ExtMock.elrond_reserved ++ [7]) = true ∧
    ExtMock.storage_store [] (ExtMock.elrond_reserved ++ [7]) [1, 2] =
      Except.error (ExtMock.HookError.txPanic
        { status := 10, message := "cannot write to storage under Elrond reserved key" }) :=
  ⟨by decide,
    storage_store_reserved_key [] (ExtMock.elrond_reserved ++ [7]) [1, 2] (by decide)⟩

/-- C7: storing an arbitrary-precision unsigned integer with
`storage_store_big_uint` under a non-reserved key and loading that key
with `storage_load_big_uint` yields the original value, for every
non-negative integer including zero; zero is encoded as the empty byte
string. -/
theorem storage_big_uint_round_trip (st : ExtMock.Storage) (key : Bytes) (n : Nat)
    (hres : ExtMock.elrond_reserved.isPrefixOf key = false) :
    ExtMock.storage_store_big_uint st key n =
      Except.ok (assocInsert st key (natToBytesBE n)) ∧
    ExtMock.storage_load_big_uint (assocInsert st key (natToBytesBE n)) key = n ∧
    natToBytesBE 0 = [] := by
  refine ⟨?_, ?_, by rw [natToBytesBE]; simp⟩
  · unfold ExtMock.storage_store_big_uint ExtMock.storage_store
    rw [hres]
    simp
  · unfold ExtMock.storage_load_big_uint ExtMock.storage_load
    rw [assocGet_assocInsert_same]
    exact bytesToNatBE_natToBytesBE n

theorem storage_big_uint_round_trip_witness :
    ExtMock.elrond_reserved.isPrefixOf [1] = false ∧
    (ExtMock.storage_store_big_uint [] [1] 515 =
        Except.ok (assocInsert [] [1] (natToBytesBE 515)) ∧
      ExtMock.storage_load_big_uint (assocInsert [] [1] (natToBytesBE 515)) [1] = 515 ∧
      natToBytesBE 0 = []) :=
  ⟨by decide, storage_big_uint_round_trip [] [1] 515 (by decide)⟩

/-- C8: loading 32 fixed-width bytes from a key never written returns 32
zero bytes; after storing a value of length at most 32 under a
non-reserved key, the fixed-width load returns it right-aligned at
offset `32 - len`, zero-filled on the left; for a 32-byte value the
store/load round-trip returns the original value unchanged. -/
theorem storage_bytes32_spec (st : ExtMock.Storage) (key v : Bytes)
    (hres : ExtMock.elrond_reserved.isPrefixOf key = false)
    (hnone : assocGet st key = none)
    (hlen : v.length ≤ 32) :
    ExtMock.storage_load_bytes32 st key = Except.ok (List.replicate 32 0) ∧
    ExtMock.storage_store_bytes32 st key v = Except.ok (assocInsert st key v) ∧
    ExtMock.storage_load_bytes32 (assocInsert st key v) key =
      Except.ok (List.replicate (32 - v.length) 0 ++ v) ∧
    (v.length = 32 → List.replicate (32 - v.length) 0 ++ v = v) := by
  refine ⟨?_, ?_, ?_, ?_⟩
  · unfold ExtMock.storage_load_bytes32 ExtMock.storage_load
    rw [hnone]
    simp
  · unfold ExtMock.storage_store_bytes32 ExtMock.storage_store
    rw [hres]
    simp
  · unfold ExtMock.storage_load_bytes32 ExtMock.storage_load
    rw [assocGet_assocInsert_same]
    simp [Nat.not_lt.mpr hlen]
  · intro h32
    rw [h32]
    simp

theorem storage_bytes32_spec_witness :
    ExtMock.elrond_reserved.isPrefixOf [2] = false ∧
    assocGet ([] : ExtMock.Storage) [2] = none ∧
    ([9, 8] : Bytes).length ≤ 32 ∧
    (ExtMock.storage_load_bytes32 [] [2] = Except.ok (List.replicate 32 0) ∧
      ExtMock.storage_store_bytes32 [] [2] [9, 8] = Except.ok (assocInsert [] [2] [9, 8]) ∧
      ExtMock.storage_load_bytes32 (assocInsert [] [2] [9, 8]) [2] =
        Except.ok (List.replicate (32 - ([9, 8] : Bytes).length) 0 ++ [9, 8]) ∧
      (([9, 8] : Bytes).length = 32 →
        List.replicate (32 - ([9, 8] : Bytes).length) 0 ++ [9, 8] = [9, 8])) :=
  ⟨by decide, by decide, by decide,
    storage_bytes32_spec [] [2] [9, 8] (by decide) (by decide) (by decide)⟩

/-- C10: a byte string strictly longer than 32 bytes makes the
fixed-width 32-byte read primitives abort with the `usize` underflow of
`offset = 32 - len` — in `get_argument_bytes32` for an over-long call
argument and in `storage_load_bytes32` for an over-long stored value —
rather than truncating the value or raising a status-10 `TxPanic`. -/
theorem bytes32_overlong_underflow (st : ExtMock.Storage) (key : Bytes)
    (args : List Bytes) (i : Int) (arg : Bytes)
    (hstored : 32 < (ExtMock.storage_load st key).length)
    (harg : ExtMock.get_argument_vec_u8 args i = Except.ok arg)
    (hlen : 32 < arg.length) :
    ExtMock.storage_load_bytes32 st key = Except.error ExtMock.HookError.usizeUnderflow ∧
    ExtMock.get_argument_bytes32 args i = Except.error ExtMock.HookError.usizeUnderflow ∧
    ExtMock.resultIsStatus10Panic (ExtMock.storage_load_bytes32 st key) = false ∧
    ExtMock.resultIsStatus10Panic (ExtMock.get_argument_bytes32 args i) = false := by
  have h1 : ExtMock.storage_load_bytes32 st key =
      Except.error ExtMock.HookError.usizeUnderflow := by
    unfold ExtMock.storage_load_bytes32
    simp [hstored]
  have h2 : ExtMock.get_argument_bytes32 args i =
      Except.error ExtMock.HookError.usizeUnderflow := by
    unfold ExtMock.get_argument_bytes32
    rw [harg]
    simp [hlen]
  refine ⟨h1, h2, ?_, ?_⟩
  · rw [h1]
    rfl
  · rw [h2]
    rfl

theorem bytes32_overlong_underflow_witness :
    32 < (ExtMock.storage_load [([1], List.replicate 33 7)] [1]).length ∧
    ExtMock.get_argument_vec_u8 [List.replicate 33 7] 0 =
      Except.ok (List.replicate 33 7) ∧
    32 < (List.replicate 33 7 : Bytes).length ∧
    (ExtMock.storage_load_bytes32 [([1], List.replicate 33 7)] [1] =
        Except.error ExtMock.HookError.usizeUnderflow ∧
      ExtMock.get_argument_bytes32 [List.replicate 33 7] 0 =
        Except.error ExtMock.HookError.usizeUnderflow ∧
      ExtMock.resultIsStatus10Panic
        (ExtMock.storage_load_bytes32 [([1], List.replicate 33 7)] [1]) = false ∧
      ExtMock.resultIsStatus10Panic
        (ExtMock.get_argument_bytes32 [List.replicate 33 7] 0) = false) :=
  ⟨by decide, by decide, by decide,
    bytes32_overlong_underflow [([1], List.replicate 33 7)] [1]
      [List.replicate 33 7] 0 (List.replicate 33 7) (by decide) (by decide) (by decide)⟩

/-- C6 counterexample: reading argument index 0 of an empty argument
list fails with the plain string panic `"Tx arg index out of range"`,
not with a structured status-10 Transaction Panic — refuting the claim
that every out-of-range argument read is a status-10 failure. -/
theorem get_argument_out_of_range_not_status10 :
    ExtMock.get_argument_vec_u8 [] 0 =
      Except.error (ExtMock.HookError.strPanic "Tx arg index out of range") ∧
    ExtMock.resultIsStatus10Panic (ExtMock.get_argument_vec_u8 ([] : List Bytes) 0) = false :=
  ⟨rfl, rfl⟩

/-- C6 (amended): an argument read with an index outside the declared
range fails with the textual engine panic `"Tx arg index out of range"`
(which the Panic Translator wraps as a status-4 user error), while a
numeric argument that does not fit in `i64` fails with a structured
status-10 `TxPanic`; neither is an engine crash. -/
theorem get_argument_failure_modes (args : List Bytes) (i j : Int) (bytes : Bytes)
    (hout : args.length ≤ ((i % (2 ^ 64 : Int)).toNat))
    (hok : ExtMock.get_argument_vec_u8 args j = Except.ok bytes)
    (hbig : fromSignedBytesBE bytes < -(2 ^ 63 : Int) ∨
      (2 ^ 63 : Int) ≤ fromSignedBytesBE bytes) :
    ExtMock.get_argument_vec_u8 args i =
      Except.error (ExtMock.HookError.strPanic "Tx arg index out of range") ∧
    (VmCore.interpret_panic_as_tx_result
        (VmCore.PanicPayload.textual "Tx arg index out of range") true).status = 4 ∧
    ExtMock.get_argument_i64 args j =
      Except.error (ExtMock.HookError.txPanic
        { status := 10, message := "argument out of range" }) := by
  refine ⟨?_, rfl, ?_⟩
  · unfold ExtMock.get_argument_vec_u8
    dsimp only
    rw [if_pos hout]
  · unfold ExtMock.get_argument_i64
    rw [hok]
    have hno : ¬(-(2 ^ 63 : Int) ≤ fromSignedBytesBE bytes ∧
        fromSignedBytesBE bytes < 2 ^ 63) := by
      rcases hbig with hlt | hge
      · intro hc
        omega
      · intro hc
        omega
    dsimp only
    rw [if_neg hno]

theorem get_argument_failure_modes_witness :
    ([[128, 0, 0, 0, 0, 0, 0, 0, 0]] : List Bytes).length ≤ (((5 : Int) % (2 ^ 64 : Int)).toNat) ∧
    ExtMock.get_argument_vec_u8 [[128, 0, 0, 0, 0, 0, 0, 0, 0]] 0 =
      Except.ok [128, 0, 0, 0, 0, 0, 0, 0, 0] ∧
    (fromSignedBytesBE [128, 0, 0, 0, 0, 0, 0, 0, 0] < -(2 ^ 63 : Int) ∨
      (2 ^ 63 : Int) ≤ fromSignedBytesBE [128, 0, 0, 0, 0, 0, 0, 0, 0]) ∧
    (ExtMock.get_argument_vec_u8 [[128, 0, 0, 0, 0, 0, 0, 0, 0]] 5 =
        Except.error (ExtMock.HookError.strPanic "Tx arg index out of range") ∧
      (VmCore.interpret_panic_as_tx_result
          (VmCore.PanicPayload.textual "Tx arg index out of range") true).status = 4 ∧
      ExtMock.get_argument_i64 [[128, 0, 0, 0, 0, 0, 0, 0, 0]] 0 =
        Except.error (ExtMock.HookError.txPanic
          { status := 10, message := "argument out of range" })) :=
  ⟨by decide, by decide, by decide,
    get_argument_failure_modes [[128, 0, 0, 0, 0, 0, 0, 0, 0]] 5 0
      [128, 0, 0, 0, 0, 0, 0, 0, 0] (by decide) (by decide) (by decide)⟩

/-- C9: when an account already exists at the deploy address — in the
committed store or in the cache's working set — `create_new_contract`
fails fatally (through its assertion or through `insert_account`)
instead of registering the new account; no updated cache is produced, so
no storage of the new account is touched and nothing is overwritten. -/
theorem create_new_contract_collision (c : VmCore.TxCache) (addr : VmCore.VMAddress)
    (path : Bytes) (owner : VmCore.VMAddress)
    (h : (c.get_account addr).isSome = true) :
    VmCore.create_new_contract c addr path owner =
      Except.error (VmCore.VmError.fatal "Account already exists at deploy address.") := by
  unfold VmCore.create_new_contract
  by_cases hc : (VmCore.findCommittedAccount c.blockchain_ref addr).isSome
  · rw [if_pos hc]
  · rw [if_neg hc]
    unfold VmCore.TxCache.insert_account
    cases hg : c.get_account addr with
    | none => rw [hg] at h; simp at h
    | some a =>
        have : VmCore.TxCache.get_account c addr = some a := hg
        simp [this]

theorem create_new_contract_collision_witness :
    (Fixtures.cacheOccupied.get_account Fixtures.addrContractA).isSome = true ∧
    VmCore.create_new_contract Fixtures.cacheOccupied Fixtures.addrContractA [0]
        Fixtures.addrUser =
      Except.error (VmCore.VmError.fatal "Account already exists at deploy address.") :=
  ⟨by decide,
    create_new_contract_collision Fixtures.cacheOccupied Fixtures.addrContractA [0]
      Fixtures.addrUser (by decide)⟩

/-- C1: when any balance transfer requested by the input — the
native-coin leg or any secondary-token leg, checked in order — fails
with an insufficient-balance Transaction Panic, `default_execution`
returns the panic-derived Result (whose status is non-zero) together
with an empty Blockchain Update; no modified cache is committed, so the
ledger state is unchanged. -/
theorem default_execution_failed_transfer (executor : VmCore.Executor)
    (tx_input : VmCore.TxInput) (tx_cache : VmCore.TxCache) (p : TxPanic)
    (h : VmCore.transferPhase tx_input tx_cache = Except.error (VmCore.VmError.panic p)) :
    VmCore.default_execution executor tx_input tx_cache =
      Except.ok (VmCore.TxResult.from_panic_obj p, VmCore.BlockchainUpdate.empty) ∧
    (VmCore.TxResult.from_panic_obj p).result_status ≠ 0 := by
  constructor
  · unfold VmCore.default_execution
    unfold VmCore.transferPhase at h
    split at h
    · rename_i e heq
      simp at h
      subst h
      rw [heq]
    · rename_i c1 heq
      rw [heq]
      dsimp only
      rw [h]
  · have hp := VmCore.transferPhase_panic_eq tx_input tx_cache p h
    rw [hp]
    decide

theorem default_execution_failed_transfer_witness :
    VmCore.transferPhase Fixtures.inputUserNoFunds Fixtures.cacheUserNoFunds =
      Except.error (VmCore.VmError.panic VmCore.insufficient_funds_panic) ∧
    (VmCore.default_execution Fixtures.trivialExecutor Fixtures.inputUserNoFunds
        Fixtures.cacheUserNoFunds =
      Except.ok (VmCore.TxResult.from_panic_obj VmCore.insufficient_funds_panic,
        VmCore.BlockchainUpdate.empty) ∧
      (VmCore.TxResult.from_panic_obj VmCore.insufficient_funds_panic).result_status ≠ 0) :=
  ⟨by decide,
    default_execution_failed_transfer Fixtures.trivialExecutor Fixtures.inputUserNoFunds
      Fixtures.cacheUserNoFunds VmCore.insufficient_funds_panic (by decide)⟩

/-- C5: when the sender is a contract address, the native-coin value is
non-zero and all transfers succeed, the final Result of
`default_execution` is the dispatched call's Result with the synthesized
transfer log prepended as first log: zero emitting address, endpoint
`"transferValueOnly"`, topics exactly `[from bytes, to bytes, value as
big-endian bytes]` and empty payload, before any logs the dispatched
call produced. -/
theorem default_execution_prepends_transfer_log (executor : VmCore.Executor)
    (tx_input : VmCore.TxInput) (tx_cache c2 : VmCore.TxCache)
    (hsc : tx_input.from_addr.is_smart_contract_address = true)
    (hval : tx_input.egld_value ≠ 0)
    (hphase : VmCore.transferPhase tx_input tx_cache = Except.ok c2) :
    VmCore.default_execution executor tx_input tx_cache =
      Except.ok
        ({ (VmCore.dispatchPhase executor tx_input c2).1 with
            result_logs := VmCore.transferValueOnlyLog tx_input ::
              (VmCore.dispatchPhase executor tx_input c2).1.result_logs },
          (VmCore.dispatchPhase executor tx_input c2).2.into_blockchain_updates) := by
  unfold VmCore.transferPhase at hphase
  unfold VmCore.default_execution
  split at hphase
  · simp at hphase
  · rename_i c1 heq
    rw [heq]
    dsimp only
    rw [hphase]
    simp [hsc, hval]

theorem default_execution_prepends_transfer_log_witness :
    Fixtures.inputScTransfer.from_addr.is_smart_contract_address = true ∧
    Fixtures.inputScTransfer.egld_value ≠ 0 ∧
    VmCore.transferPhase Fixtures.inputScTransfer Fixtures.cacheScTransfer =
      Except.ok Fixtures.cacheScAfter ∧
    VmCore.default_execution Fixtures.loggingExecutor Fixtures.inputScTransfer
        Fixtures.cacheScTransfer =
      Except.ok
        ({ (VmCore.dispatchPhase Fixtures.loggingExecutor Fixtures.inputScTransfer
              Fixtures.cacheScAfter).1 with
            result_logs := VmCore.transferValueOnlyLog Fixtures.inputScTransfer ::
              (VmCore.dispatchPhase Fixtures.loggingExecutor Fixtures.inputScTransfer
                Fixtures.cacheScAfter).1.result_logs },
          (VmCore.dispatchPhase Fixtures.loggingExecutor Fixtures.inputScTransfer
            Fixtures.cacheScAfter).2.into_blockchain_updates) :=
  ⟨by decide, by decide, by decide,
    default_execution_prepends_transfer_log Fixtures.loggingExecutor
      Fixtures.inputScTransfer Fixtures.cacheScTransfer Fixtures.cacheScAfter
      (by decide) (by decide) (by decide)⟩
